import Mathlib

/-!
Verification of the credential-lifecycle and fetch-orchestration core of the
`tokeniuse` / `llmeter` repository, as a shallow embedding in Lean 4.

The embedding follows the Python sources under `src/llmeter/`:

* `auth.py` — the unified credential store (`load_provider`, `save_provider`,
  `is_expired`, the 5-minute expiry buffer);
* `providers/claude_oauth.py`, `providers/codex_oauth.py`,
  `providers/gemini_oauth.py` — PKCE generation, credential loaders,
  token refresh, `get_valid_*` entry points and interactive login flows;
* `backend.py` — `fetch_one` / `fetch_all` orchestration;
* `app.py` — the refresh-cycle bookkeeping of `LLMeterApp`
  (`_refresh_all`, `_fetch_provider`).

External effects (HTTP responses, the random source, terminal input, the
clock, JWT decoding) are passed in as explicit parameters, so every function
here is a pure, executable translation of the corresponding Python code.
Python `dict`s holding JSON data are modelled as association lists of
`Jval` values; dict truthiness and `.get` defaults are translated explicitly.
-/

namespace LLMeter

/-- A flat JSON-ish value as stored in the credential files: the credential
records written by this code hold only strings, integers, booleans and null
at the top level. -/
inductive Jval where
  | str (s : String)
  | num (n : Int)
  | bool (b : Bool)
  | null
deriving DecidableEq, Repr

/-- A Python dict holding JSON data, as an association list (first binding
wins, matching the single-binding dicts the code constructs). -/
abbrev Jdict := List (String × Jval)

/-- `d.get(k)` on a Python dict: first value bound to `k`, if any. -/
def dictGet (d : Jdict) (k : String) : Option Jval :=
  (d.find? (fun p => p.1 = k)).map (fun p => p.2)

/-- Python truthiness of `d.get(k)`-style results: `None` and missing are
falsy, `""` and `0` and `False` and JSON null are falsy, all else truthy. -/
def truthy : Option Jval → Bool
  | none => false
  | some (.str s) => s ≠ ""
  | some (.num n) => n ≠ 0
  | some (.bool b) => b
  | some .null => false

/-- Python truthiness of an `Optional[str]`. -/
def strTruthy : Option String → Bool
  | none => false
  | some s => s ≠ ""

/-- Python's `str.strip()` on a character list: drop leading and trailing
whitespace. -/
def stripChars (l : List Char) : List Char :=
  ((l.dropWhile Char.isWhitespace).reverse.dropWhile Char.isWhitespace).reverse

/-- Python's `str.strip()`. -/
def pyStrip (s : String) : String := String.mk (stripChars s.toList)

-- ══════════════════════════════════════════════════════════
-- auth.py — unified credential store (one auth.json for all providers)
-- ══════════════════════════════════════════════════════════

/-- The in-memory content of `auth.json`: `provider_id → record`.
`load_all` / `_save_all` read and write this mapping; the file-corruption
fallback of `load_all` (returning `{}`) is an I/O concern outside the
per-record semantics verified here. -/
def AuthData := String → Option Jdict

/-- The empty `auth.json`. -/
def emptyAuth : AuthData := fun _ => none

/-- `auth.EXPIRY_BUFFER_MS = 5 * 60 * 1000`. -/
def EXPIRY_BUFFER_MS : Int := 5 * 60 * 1000

/-- `auth.VALID_TYPES = {"oauth", "cookie"}` membership test, applied to the
record's `"type"` field exactly as `creds.get("type") in VALID_TYPES` does:
only the string values `"oauth"` and `"cookie"` pass. -/
def validType : Option Jval → Bool
  | some (.str t) => t = "oauth" || t = "cookie"
  | _ => false

/-- `auth.load_provider`: look the provider up in the store and return the
record only when its `"type"` is in `VALID_TYPES`. -/
def load_provider (st : AuthData) (provider_id : String) : Option Jdict :=
  match st provider_id with
  | some creds => if validType (dictGet creds "type") then some creds else none
  | none => none

/-- `auth.save_provider`: merge the single record into the store
(read-modify-write of the whole file). -/
def save_provider (st : AuthData) (provider_id : String) (creds : Jdict) : AuthData :=
  fun k => if k = provider_id then some creds else st k

/-- `auth.clear_provider`: drop the provider's record if present. -/
def clear_provider (st : AuthData) (provider_id : String) : AuthData :=
  fun k => if k = provider_id then none else st k

/-- `creds.get("expires", 0)` where stored expiry values are integer
millisecond timestamps (the only type this code ever writes there). -/
def credExpires (creds : Jdict) : Int :=
  match dictGet creds "expires" with
  | some (.num n) => n
  | _ => 0

/-- `auth.is_expired`: `_now_ms() >= creds.get("expires", 0)`.  `now` is the
current epoch-millisecond clock reading (a natural number: `time.time()` is
nonnegative). -/
def is_expired (now : Nat) (creds : Jdict) : Bool :=
  decide (credExpires creds ≤ (now : Int))

-- ══════════════════════════════════════════════════════════
-- claude_oauth.py — credential persistence in claude_oauth.json
-- ══════════════════════════════════════════════════════════

/-- The in-memory content of `claude_oauth.json` (a single record or no
file). -/
abbrev ClaudeStore := Option Jdict

/-- `claude_oauth.load_credentials`: return the stored record only when both
`access_token` and `refresh_token` are present and truthy. -/
def claude_load_credentials (st : ClaudeStore) : Option Jdict :=
  match st with
  | none => none
  | some data =>
    if truthy (dictGet data "access_token") && truthy (dictGet data "refresh_token") then
      some data
    else
      none

/-- `creds.get("expires_at", 0)` (claude's key for the buffered expiry). -/
def claudeCredExpires (creds : Jdict) : Int :=
  match dictGet creds "expires_at" with
  | some (.num n) => n
  | _ => 0

/-- `claude_oauth.is_token_expired`: `_now_ms() >= creds.get("expires_at", 0)`. -/
def claude_is_token_expired (now : Nat) (creds : Jdict) : Bool :=
  decide (claudeCredExpires creds ≤ (now : Int))

-- ══════════════════════════════════════════════════════════
-- codex_oauth.py / gemini_oauth.py — loaders over the unified store
-- ══════════════════════════════════════════════════════════

/-- `codex_oauth.PROVIDER_ID`. -/
def CODEX_PROVIDER_ID : String := "openai-codex"

/-- `gemini_oauth.PROVIDER_ID`. -/
def GEMINI_PROVIDER_ID : String := "google-gemini-cli"

/-- `codex_oauth.load_credentials`: record from the unified store, kept only
when `access`, `refresh` and `accountId` are all present and truthy. -/
def codex_load_credentials (st : AuthData) : Option Jdict :=
  match load_provider st CODEX_PROVIDER_ID with
  | some creds =>
    if truthy (dictGet creds "access") && truthy (dictGet creds "refresh")
        && truthy (dictGet creds "accountId") then
      some creds
    else
      none
  | none => none

/-- `gemini_oauth.load_credentials`: exactly `auth.load_provider(PROVIDER_ID)`
— no token-presence check of its own. -/
def gemini_load_credentials (st : AuthData) : Option Jdict :=
  load_provider st GEMINI_PROVIDER_ID

-- ══════════════════════════════════════════════════════════
-- Token refresh — HTTP environment and Python exceptions
-- ══════════════════════════════════════════════════════════

/-- A Python exception as observed by the `except` clauses in this code:
either a `RuntimeError` (what the refresh wrappers raise for non-2xx
responses and missing fields) or any other exception class (aiohttp
network/timeout errors, `KeyError`, ...). -/
inductive PyErr where
  | runtime (msg : String)
  | other (msg : String)
deriving DecidableEq, Repr

/-- The parsed JSON body of a token-endpoint response, with the field types
the OAuth token contract gives them (`None` models a missing key; a `.get`
with a default distinguishes only missing from present). -/
structure TokenData where
  access_token : Option String := none
  refresh_token : Option String := none
  expires_in : Option Int := none
  id_token : Option String := none
deriving DecidableEq, Repr

/-- Outcome of one `aiohttp` POST to a token endpoint: either a response with
a status, an error-body excerpt and (for 200) the parsed JSON, or a transport
failure raised as a non-`RuntimeError` exception. -/
inductive HttpResult where
  | response (status : Nat) (body : String) (json : TokenData)
  | netError (msg : String)
deriving DecidableEq, Repr

-- ══════════════════════════════════════════════════════════
-- claude_oauth.py — refresh_access_token / get_valid_access_token
-- ══════════════════════════════════════════════════════════

/-- `claude_oauth.refresh_access_token`: refuse without a truthy
`refresh_token`; non-2xx raises `RuntimeError`; on 200 it indexes
`token_data["access_token"]` / `["expires_in"]` (a missing key is a
`KeyError`, not a `RuntimeError`), builds the new record with
`expires_at = now + expires_in*1000 − buffer`, persists it and returns it.
A transport failure propagates as a non-`RuntimeError` exception. -/
def claude_refresh_access_token (now : Nat) (creds : Jdict)
    (http : HttpResult) : Except PyErr (Jdict × ClaudeStore) :=
  let rt := dictGet creds "refresh_token"
  if ¬ truthy rt then
    .error (.runtime "No refresh token available — run `llmeter --login-claude`.")
  else
    match http with
    | .netError msg => .error (.other msg)
    | .response status body td =>
      if status ≠ 200 then
        .error (.runtime ("Token refresh failed (HTTP " ++ toString status ++ "): "
          ++ body.take 200))
      else
        match td.access_token with
        | none => .error (.other "KeyError: access_token")
        | some accessTok =>
          match td.expires_in with
          | none => .error (.other "KeyError: expires_in")
          | some expiresIn =>
            let newRefresh : Jval := match td.refresh_token with
              | some r => .str r
              | none => rt.getD .null
            let newCreds : Jdict :=
              [("access_token", .str accessTok),
               ("refresh_token", newRefresh),
               ("expires_at", .num ((now : Int) + expiresIn * 1000 - EXPIRY_BUFFER_MS))]
            .ok (newCreds, some newCreds)

/-- `claude_oauth.get_valid_access_token`: load, return `None` when absent,
refresh when expired catching only `RuntimeError`, and return
`creds.get("access_token")`.  The returned pair carries the store content
after the call. -/
def claude_get_valid_access_token (now : Nat) (st : ClaudeStore)
    (http : HttpResult) : Except PyErr (Option Jval × ClaudeStore) :=
  match claude_load_credentials st with
  | none => .ok (none, st)
  | some creds =>
    if claude_is_token_expired now creds then
      match claude_refresh_access_token now creds http with
      | .error (.runtime _) => .ok (none, st)
      | .error e => .error e
      | .ok (newCreds, st2) => .ok (dictGet newCreds "access_token", st2)
    else
      .ok (dictGet creds "access_token", st)

-- ══════════════════════════════════════════════════════════
-- codex_oauth.py — refresh_access_token / get_valid_credentials
-- ══════════════════════════════════════════════════════════

/-- `codex_oauth.refresh_access_token`.  `extractAcc` and `extractEmail`
stand for `extract_account_id` / `extract_email` (JWT-payload decoding of
the returned tokens, orthogonal to the credential lifecycle).  Non-2xx and
missing required fields raise `RuntimeError`; on success the new record —
`expires = now + expires_in*1000 − buffer`, `accountId` and `email` carried
forward when the response does not supply them — is persisted under
`"openai-codex"` and returned. -/
def codex_refresh_access_token (now : Nat)
    (extractAcc extractEmail : String → Option String)
    (st : AuthData) (creds : Jdict) (http : HttpResult) :
    Except PyErr (Jdict × AuthData) :=
  let rt := dictGet creds "refresh"
  if ¬ truthy rt then
    .error (.runtime "No refresh token available — run `llmeter --login-codex`.")
  else
    match http with
    | .netError msg => .error (.other msg)
    | .response status body td =>
      if status ≠ 200 then
        .error (.runtime ("Token refresh failed (HTTP " ++ toString status ++ "): "
          ++ body.take 200))
      else
        if strTruthy td.access_token && td.expires_in.isSome then
          let accessTok := td.access_token.getD ""
          let expiresIn := td.expires_in.getD 0
          let newRefresh : Jval := match td.refresh_token with
            | some r => .str r
            | none => rt.getD .null
          -- account_id = extract_account_id(access_token) or creds.get("accountId")
          let accountId : Jval := match extractAcc accessTok with
            | some s => if s = "" then (dictGet creds "accountId").getD .null else .str s
            | none => (dictGet creds "accountId").getD .null
          -- email = extract_email(id_token) if id_token else creds.get("email")
          let email : Option Jval :=
            if strTruthy td.id_token then (extractEmail (td.id_token.getD "")).map .str
            else dictGet creds "email"
          -- if email: new_creds["email"] = email
          let emailEntry : Jdict := match email with
            | some ev => if truthy (some ev) then [("email", ev)] else []
            | none => []
          let newCreds : Jdict :=
            [("type", .str "oauth"),
             ("access", .str accessTok),
             ("refresh", newRefresh),
             ("expires", .num ((now : Int) + expiresIn * 1000 - EXPIRY_BUFFER_MS)),
             ("accountId", accountId)] ++ emailEntry
          .ok (newCreds, save_provider st CODEX_PROVIDER_ID newCreds)
        else
          .error (.runtime "Token refresh response missing required fields.")

/-- `codex_oauth.get_valid_credentials`: load, `None` when absent, refresh
when expired catching only `RuntimeError`, and return the full record.  The
returned pair carries the unified store content after the call. -/
def codex_get_valid_credentials (now : Nat)
    (extractAcc extractEmail : String → Option String)
    (st : AuthData) (http : HttpResult) :
    Except PyErr (Option Jdict × AuthData) :=
  match codex_load_credentials st with
  | none => .ok (none, st)
  | some creds =>
    if is_expired now creds then
      match codex_refresh_access_token now extractAcc extractEmail st creds http with
      | .error (.runtime _) => .ok (none, st)
      | .error e => .error e
      | .ok (newCreds, st2) => .ok (some newCreds, st2)
    else
      .ok (some creds, st)

-- ══════════════════════════════════════════════════════════
-- models.py — ProviderMeta / ProviderResult / PROVIDERS
-- ══════════════════════════════════════════════════════════

/-- `models.ProviderMeta` (display metadata, with the dataclass defaults). -/
structure ProviderMeta where
  id : String
  name : String
  icon : String
  color : String
  primary_label : String := "Session"
  secondary_label : String := "Weekly"
  tertiary_label : String := "Sonnet"
  default_enabled : Bool := false
deriving DecidableEq, Repr

/-- `models.ProviderResult`, with the usage fields (`primary`, `secondary`,
`tertiary`, `credits`, `cost`, `identity`, `version`, `updated_at`) bundled
into one opaque payload of type `α` — the spec treats the usage payload as
opaque and no claim inspects it. -/
structure ProviderResult (α : Type) where
  provider_id : String
  display_name : String
  icon : String
  color : String
  source : String := "unknown"
  payload : Option α := none
  error : Option String := none
  primary_label : String := ""
  secondary_label : String := ""
  tertiary_label : String := ""
deriving DecidableEq

/-- `ProviderMeta.to_result()` with no overrides. -/
def ProviderMeta.toResult {α : Type} (m : ProviderMeta) : ProviderResult α :=
  { provider_id := m.id, display_name := m.name, icon := m.icon, color := m.color,
    primary_label := m.primary_label, secondary_label := m.secondary_label,
    tertiary_label := m.tertiary_label }

/-- `meta.to_result(provider_id=pid, error=err)` — the override shape used by
`fetch_one` for unknown providers and caught exceptions. -/
def ProviderMeta.errorResult {α : Type} (m : ProviderMeta) (pid : String)
    (err : String) : ProviderResult α :=
  { m.toResult with provider_id := pid, error := some err }

/-- `models.PROVIDERS` — the registry of display metadata, in its canonical
insertion order. -/
def PROVIDERS_list : List (String × ProviderMeta) :=
  [("claude", { id := "claude", name := "Claude", icon := "◈", color := "#d4a27f",
                primary_label := "Session (5h)", secondary_label := "Weekly",
                tertiary_label := "Sonnet", default_enabled := true }),
   ("codex", { id := "codex", name := "Codex", icon := "⬡", color := "#10a37f",
               primary_label := "Session (5h)", secondary_label := "Weekly",
               default_enabled := true }),
   ("gemini", { id := "gemini", name := "Gemini", icon := "✦", color := "#ab87ea",
                primary_label := "Pro (24h)", secondary_label := "Flash (24h)" }),
   ("cursor", { id := "cursor", name := "Cursor", icon := "⦿", color := "#848484",
                primary_label := "Plan", secondary_label := "On-Demand" }),
   ("copilot", { id := "copilot", name := "Copilot", icon := "⬠", color := "#6e40c9",
                 primary_label := "Premium (Monthly)" }),
   ("anthropic-api", { id := "anthropic-api", name := "Anthropic API", icon := "◈",
                       color := "#d4a27f", primary_label := "Spend" }),
   ("openai-api", { id := "openai-api", name := "OpenAI API", icon := "⬡",
                    color := "#10a37f", primary_label := "Spend" }),
   ("opencode", { id := "opencode", name := "Opencode Zen API", icon := "◆",
                  color := "#F5EFEA", primary_label := "Monthly" })]

/-- `PROVIDERS.get(pid)`. -/
def PROVIDERS (pid : String) : Option ProviderMeta :=
  (PROVIDERS_list.find? (fun p => p.1 = pid)).map (fun p => p.2)

-- ══════════════════════════════════════════════════════════
-- backend.py — fetch_one / fetch_all
-- ══════════════════════════════════════════════════════════

/-- `backend._FALLBACK_META`. -/
def FALLBACK_META : ProviderMeta :=
  { id := "?", name := "Unknown", icon := "●", color := "#888888" }

/-- `backend.ALL_PROVIDER_ORDER`. -/
def ALL_PROVIDER_ORDER : List String :=
  ["codex", "claude", "cursor", "gemini", "copilot", "openai-api",
   "anthropic-api", "opencode"]

/-- A provider fetch function (`backend.FetchFunc`): given the optional
`settings` kwarg and the timeout, it either returns a `ProviderResult` or
raises an exception carrying `str(e)`.  The registry `PROVIDER_FETCHERS`
binds real HTTP-backed coroutines, so the registry is a parameter of the
orchestrator embedding. -/
def FetchFunc (α : Type) := Option Jdict → Nat → Except String (ProviderResult α)

/-- `backend.fetch_one`: unknown provider → immediate error result; otherwise
call the fetcher with the timeout and — only when truthy — the settings
(`if settings: kwargs["settings"] = settings`), converting every raised
exception into an error result carrying its message. -/
def fetch_one {α : Type} (fetchers : String → Option (FetchFunc α))
    (provider_id : String) (settings : Option Jdict) (timeout : Nat) :
    ProviderResult α :=
  let meta := (PROVIDERS provider_id).getD FALLBACK_META
  match fetchers provider_id with
  | none => meta.errorResult provider_id ("Unknown provider: " ++ provider_id)
  | some fetcher =>
    let settingsArg : Option Jdict := match settings with
      | some s => if s ≠ [] then some s else none
      | none => none
    match fetcher settingsArg timeout with
    | .ok r => r
    | .error e => meta.errorResult provider_id e

/-- Lookup in the `provider_settings` map (`settings_map.get(pid)`). -/
def settingsGet (sm : List (String × Jdict)) (pid : String) : Option Jdict :=
  (sm.find? (fun p => p.1 = pid)).map (fun p => p.2)

/-- `backend.fetch_all`: resolve the id list (given list, or the
default-enabled providers in canonical order), then gather one `fetch_one`
per id — `asyncio.gather` returns results in input order. -/
def fetch_all {α : Type} (fetchers : String → Option (FetchFunc α))
    (provider_ids : Option (List String))
    (provider_settings : Option (List (String × Jdict))) (timeout : Nat) :
    List (ProviderResult α) :=
  let ids := match provider_ids with
    | some l => l
    | none => ALL_PROVIDER_ORDER.filter (fun pid =>
        ((PROVIDERS pid).getD
          { id := pid, name := "", icon := "", color := "" }).default_enabled)
  let sm := provider_settings.getD []
  ids.map (fun pid => fetch_one fetchers pid (settingsGet sm pid) timeout)

-- ══════════════════════════════════════════════════════════
-- app.py — LLMeterApp refresh-cycle bookkeeping
-- ══════════════════════════════════════════════════════════

/-- The refresh-cycle bookkeeping of `LLMeterApp`, plus two ghost fields that
record observable activity: `inFlight` is the multiset of fetch workers
currently running (one is added per `_fetch_provider` launch and removed when
its `finally` block runs), and `cycles` counts how many cycles
`_refresh_all` has actually started. -/
structure AppState where
  pending : Finset String
  inProgress : Bool
  queued : Bool
  inFlight : Multiset String
  cycles : Nat
deriving DecidableEq

/-- The freshly constructed app: no pending ids, no cycle, nothing queued. -/
def initialAppState : AppState :=
  { pending := ∅, inProgress := false, queued := false, inFlight := 0, cycles := 0 }

/-- `LLMeterApp._refresh_all`: when a cycle is in progress, only set the
queued-followup flag; otherwise start a cycle — mark in-progress, clear the
flag, set `pending` to all configured ids and launch one fetch worker per
configured provider (`cfg` is the configured provider-id list, in order). -/
def refresh_all (cfg : List String) (s : AppState) : AppState :=
  if s.inProgress then
    { s with queued := true }
  else
    { pending := cfg.toFinset, inProgress := true, queued := false,
      inFlight := s.inFlight + (cfg : Multiset String), cycles := s.cycles + 1 }

/-- The `finally` block of `LLMeterApp._fetch_provider`, run when the worker
for `pid` completes: discard `pid` from `pending`; when `pending` becomes
empty, end the cycle and — if a follow-up was queued — clear the flag and
re-trigger `_refresh_all`. -/
def provider_completed (cfg : List String) (pid : String) (s : AppState) : AppState :=
  let s1 := { s with pending := s.pending.erase pid,
                     inFlight := s.inFlight.erase pid }
  if s1.pending = ∅ then
    let s2 := { s1 with inProgress := false }
    if s.queued then refresh_all cfg { s2 with queued := false } else s2
  else
    s1

/-- States of the app reachable by any interleaving of refresh triggers and
worker completions; a completion event can only fire for a worker that is
actually in flight. -/
inductive ReachableApp (cfg : List String) : AppState → Prop where
  | init : ReachableApp cfg initialAppState
  | trigger {s : AppState} : ReachableApp cfg s →
      ReachableApp cfg (refresh_all cfg s)
  | complete {s : AppState} {pid : String} : ReachableApp cfg s →
      pid ∈ s.inFlight → ReachableApp cfg (provider_completed cfg pid s)

/-- Run a list of coordinator events (`none` = a `trigger_refresh` call,
`some pid` = the completion of `pid`'s fetch worker) from a starting state. -/
def runApp (cfg : List String) : AppState → List (Option String) → AppState
  | s, [] => s
  | s, none :: rest => runApp cfg (refresh_all cfg s) rest
  | s, some pid :: rest => runApp cfg (provider_completed cfg pid s) rest

/-- The coordinator invariant: the workers in flight are exactly the pending
ids (so each provider has at most one worker running), and outside a cycle
nothing is pending. -/
def AppInv (s : AppState) : Prop :=
  s.inFlight = s.pending.val ∧ (s.inProgress = false → s.pending = ∅)

-- ══════════════════════════════════════════════════════════
-- PKCE — base64url encoding and _generate_pkce
-- ══════════════════════════════════════════════════════════

/-- The base64url alphabet (`base64.urlsafe_b64encode`). -/
def B64URL_ALPHABET : List Char :=
  "ABCDEFGHIJKLMNOPQRSTUVWXYZabcdefghijklmnopqrstuvwxyz0123456789-_".toList

/-- Character for one six-bit group. -/
def b64urlChar (n : Nat) : Char := B64URL_ALPHABET.getD n 'A'

/-- `base64.urlsafe_b64encode` on a byte list (bytes as naturals below 256):
groups of three bytes become four alphabet characters; a final group of two
or one byte is padded with `'='`. -/
def b64encodePadded : List Nat → List Char
  | a :: b :: c :: rest =>
    b64urlChar (a / 4) :: b64urlChar (a % 4 * 16 + b / 16) ::
      b64urlChar (b % 16 * 4 + c / 64) :: b64urlChar (c % 64) ::
      b64encodePadded rest
  | [a, b] =>
    [b64urlChar (a / 4), b64urlChar (a % 4 * 16 + b / 16), b64urlChar (b % 16 * 4), '=']
  | [a] => [b64urlChar (a / 4), b64urlChar (a % 4 * 16), '=', '=']
  | [] => []

/-- `.rstrip(b"=")`: drop the maximal run of `'='` characters at the end. -/
def rstripEq : List Char → List Char
  | [] => []
  | c :: cs =>
    match rstripEq cs with
    | [] => if c = '=' then [] else [c]
    | ys => c :: ys

/-- Unpadded base64url encoding, written directly (the form the spec means
by "base64url with no padding"). -/
def b64urlNoPad : List Nat → List Char
  | a :: b :: c :: rest =>
    b64urlChar (a / 4) :: b64urlChar (a % 4 * 16 + b / 16) ::
      b64urlChar (b % 16 * 4 + c / 64) :: b64urlChar (c % 64) ::
      b64urlNoPad rest
  | [a, b] =>
    [b64urlChar (a / 4), b64urlChar (a % 4 * 16 + b / 16), b64urlChar (b % 16 * 4)]
  | [a] => [b64urlChar (a / 4), b64urlChar (a % 4 * 16)]
  | [] => []

/-- `_generate_pkce` (claude_oauth / gemini_oauth with a 32-byte seed from
`os.urandom`; codex_oauth's `secrets.token_urlsafe(64)` is the same
construction with a 64-byte seed): the verifier is the stripped base64url
encoding of the random seed, and the challenge is the stripped base64url
encoding of `sha256` applied to the ASCII bytes of the verifier.  The hash
(`hashlib.sha256(...).digest()`) is passed in as a function. -/
def generate_pkce (sha256 : List Nat → List Nat) (seed : List Nat) :
    List Char × List Char :=
  let verifier := rstripEq (b64encodePadded seed)
  let digest := sha256 (verifier.map Char.toNat)
  (verifier, rstripEq (b64encodePadded digest))

-- ══════════════════════════════════════════════════════════
-- Manual-paste parsing — urlparse/parse_qs subset and _parse_auth_input
-- ══════════════════════════════════════════════════════════

/-- Split at the first occurrence of `sep`: the part before it and, when
found, the part after it. -/
def splitOnFirst (sep : Char) : List Char → List Char × Option (List Char)
  | [] => ([], none)
  | c :: cs =>
    if c = sep then ([], some cs)
    else
      let r := splitOnFirst sep cs
      (c :: r.1, r.2)

/-- Split at every occurrence of `sep`. -/
def splitAllOn (sep : Char) (l : List Char) : List (List Char) :=
  l.foldr (fun c acc =>
    match acc with
    | [] => if c = sep then [[], []] else [[c]]
    | cur :: rest => if c = sep then [] :: cur :: rest else (c :: cur) :: rest) [[]]

/-- The query component as `urllib.parse.urlparse` extracts it: everything
after the first `'?'`, with the fragment (everything after the first `'#'`)
removed first. -/
def urlQuery (raw : List Char) : List Char :=
  let beforeFrag := (splitOnFirst '#' raw).1
  match splitOnFirst '?' beforeFrag with
  | (_, some q) => q
  | (_, none) => []

/-- First value for `key` as `parse_qs(query).get(key)[0]` yields it:
`&`-separated fields, each split at its first `'='`; fields without `'='` or
with an empty value are dropped (`keep_blank_values=False`).  Percent-escape
decoding is not modelled: the authorization codes and state values in scope
use unreserved characters only. -/
def parse_qs_first (q : List Char) (key : String) : Option String :=
  (splitAllOn '&' q).findSome? (fun field =>
    match splitOnFirst '=' field with
    | (k, some v) => if String.mk k = key ∧ v ≠ [] then some (String.mk v) else none
    | (_, none) => none)

/-- The `code#state` / plain-code fallback at the end of
`codex_oauth._parse_auth_input`: `raw.split("#", 1)[0]` when a `'#'` is
present, else the raw string itself. -/
def hashOrPlain (s : String) : Except String (Option String) :=
  if s.toList.contains '#' then .ok (some (String.mk (splitOnFirst '#' s.toList).1))
  else .ok (some s)

/-- `codex_oauth._parse_auth_input` (and, identically for the parts in
scope, `gemini_oauth._parse_auth_input`): try the input as a URL — a truthy
`state` parameter differing from the expected state raises
`RuntimeError("State mismatch")`, a truthy `code` parameter is returned —
then fall back to `code#state` splitting or the plain code. -/
def codex_parse_auth_input (raw : String) (expected : String) :
    Except String (Option String) :=
  let s := pyStrip raw
  if s = "" then .ok none
  else
    let q := urlQuery s.toList
    let code := parse_qs_first q "code"
    let state := parse_qs_first q "state"
    let mismatch : Bool := match state with
      | some st => st ≠ "" && st ≠ expected
      | none => false
    if mismatch then .error "State mismatch"
    else
      match code with
      | some c => if c ≠ "" then .ok (some c) else hashOrPlain s
      | none => hashOrPlain s

-- ══════════════════════════════════════════════════════════
-- claude_oauth.py — manual-paste login (code/state handling)
-- ══════════════════════════════════════════════════════════

/-- `claude_oauth.CLIENT_ID` (decoded from `_CLIENT_ID_B64`). -/
def CLAUDE_CLIENT_ID : String := "9d1c250a-e61b-44d9-88ed-5944d1962f5e"

/-- `claude_oauth.REDIRECT_URI`. -/
def CLAUDE_REDIRECT_URI : String := "https://console.anthropic.com/oauth/code/callback"

/-- The pasted-input handling of `claude_oauth.interactive_login`: strip,
reject empty input, split on `'#'` — `parts[0]` is the code and `parts[1]`,
when present, the state. -/
def claude_manual_parse (raw : String) : Except String (String × Option String) :=
  let s := pyStrip raw
  if s = "" then .error "No authorization code provided."
  else
    let parts := splitAllOn '#' s.toList
    .ok (String.mk (parts.headD []), (parts.get? 1).map String.mk)

/-- The token-exchange request body that `claude_oauth.interactive_login`
POSTs for a pasted input: a `.ok` value means the exchange is performed with
exactly this payload (a truthy pasted state is forwarded in the payload —
the flow never compares it against the state it sent, which was the
verifier). -/
def claude_login_exchange_payload (verifier : String) (raw : String) :
    Except String (List (String × String)) :=
  match claude_manual_parse raw with
  | .error e => .error e
  | .ok (code, stateOpt) =>
    let base := [("grant_type", "authorization_code"),
                 ("client_id", CLAUDE_CLIENT_ID),
                 ("code", code),
                 ("redirect_uri", CLAUDE_REDIRECT_URI),
                 ("code_verifier", verifier)]
    let stateEntry : List (String × String) := match stateOpt with
      | some st => if st ≠ "" then [("state", st)] else []
      | none => []
    .ok (base ++ stateEntry)

-- ══════════════════════════════════════════════════════════
-- codex_oauth.py — interactive_login (local callback with manual fallback)
-- ══════════════════════════════════════════════════════════

/-- `codex_oauth.interactive_login`, with its environment made explicit:
`bound` is whether the port-1455 listener could be started, `callbackCode`
the code the listener captured within its 60-second wait (if any),
`userInput` what the terminal prompt would read, and `exchange` the
token-endpoint POST of `_exchange_code_sync` (code and verifier to a
credential record, or a raised failure).  When the listener is absent or
captured nothing, the flow falls back to prompting and parsing manual input
in the same call; the exchanged credentials are persisted under
`"openai-codex"`. -/
def codex_interactive_login (bound : Bool) (callbackCode : Option String)
    (userInput : String) (state : String) (verifier : String)
    (exchange : String → String → Except String Jdict) (st : AuthData) :
    Except String (Jdict × AuthData) :=
  let code0 : Option String := if bound then callbackCode else none
  let codeRes : Except String (Option String) :=
    if strTruthy code0 then .ok code0
    else
      let raw := pyStrip userInput
      if raw = "" then .error "No authorization code provided."
      else codex_parse_auth_input raw state
  match codeRes with
  | .error e => .error e
  | .ok oc =>
    if strTruthy oc then
      match exchange (oc.getD "") verifier with
      | .error e => .error e
      | .ok creds => .ok (creds, save_provider st CODEX_PROVIDER_ID creds)
    else
      .error "Failed to extract authorization code."

-- ══════════════════════════════════════════════════════════
-- gemini_oauth.py — interactive_login (port-8085 callback, manual fallback)
-- ══════════════════════════════════════════════════════════

/-- `gemini_oauth._parse_auth_input`: like the codex version — URL query
first, a truthy mismatching `state` raises `RuntimeError("OAuth state
mismatch")`, a truthy `code` is returned — but the fallback is the plain
stripped input (no `code#state` splitting). -/
def gemini_parse_auth_input (raw : String) (expected : String) :
    Except String (Option String) :=
  let s := pyStrip raw
  if s = "" then .ok none
  else
    let q := urlQuery s.toList
    let code := parse_qs_first q "code"
    let state := parse_qs_first q "state"
    let mismatch : Bool := match state with
      | some st => st ≠ "" && st ≠ expected
      | none => false
    if mismatch then .error "OAuth state mismatch"
    else
      match code with
      | some c => if c ≠ "" then .ok (some c) else .ok (some s)
      | none => .ok (some s)

/-- `gemini_oauth.interactive_login`, with its environment explicit:
`bound` is whether the port-8085 listener could be started, `callbackCode`
the code captured within the 120-second wait, `userInput` the terminal
input, `exchange` the `_exchange_code_sync` POST (parsed token JSON or a
raised failure), `discover` the `_discover_project` call (project id or a
raised failure) and `userEmail` the `_get_user_email` call (which swallows
its own errors).  The state sent in the authorization URL is the verifier.
When the listener is absent or captured nothing, the flow falls back to
manual paste in the same call; on success the record — `expires_in`
defaulting to 3600 — is persisted under `"google-gemini-cli"`. -/
def gemini_interactive_login (bound : Bool) (callbackCode : Option String)
    (userInput : String) (verifier : String)
    (exchange : String → String → Except String TokenData)
    (discover : String → Except String String)
    (userEmail : String → Option String)
    (st : AuthData) (now : Nat) : Except String (Jdict × AuthData) :=
  let code0 : Option String := if bound then callbackCode else none
  let codeRes : Except String (Option String) :=
    if strTruthy code0 then .ok code0
    else
      let raw := pyStrip userInput
      if raw = "" then .error "No authorization code provided."
      else gemini_parse_auth_input raw verifier
  match codeRes with
  | .error e => .error e
  | .ok oc =>
    if strTruthy oc then
      match exchange (oc.getD "") verifier with
      | .error e => .error e
      | .ok td =>
        let access := td.access_token.getD ""
        let refresh := td.refresh_token.getD ""
        let expiresIn := td.expires_in.getD 3600
        if access ≠ "" ∧ refresh ≠ "" then
          match discover access with
          | .error e => .error e
          | .ok projectId =>
            let email := userEmail access
            let creds : Jdict :=
              [("type", Jval.str "oauth"),
               ("refresh", Jval.str refresh),
               ("access", Jval.str access),
               ("expires", Jval.num ((now : Int) + expiresIn * 1000 - EXPIRY_BUFFER_MS)),
               ("projectId", Jval.str projectId),
               ("email", (email.map Jval.str).getD Jval.null)]
            .ok (creds, save_provider st GEMINI_PROVIDER_ID creds)
        else
          .error "Token response missing access_token or refresh_token."
    else
      .error "Failed to extract authorization code."

-- ══════════════════════════════════════════════════════════
-- Concrete demonstration data (used by witnesses)
-- ══════════════════════════════════════════════════════════

/-- A successful demo fetch result for provider `pid`. -/
def demoOk (pid : String) : ProviderResult Unit :=
  { provider_id := pid, display_name := pid, icon := "●", color := "#ffffff",
    source := "oauth" }

/-- A demo fetcher registry mirroring the spec's `fetch_all(["a","b","c"])`
scenario: `"b"`'s fetcher always raises `"boom"`, `"a"` and `"c"` succeed. -/
def demoFetchers : String → Option (FetchFunc Unit) := fun pid =>
  if pid = "b" then some (fun _ _ => .error "boom")
  else if pid = "a" || pid = "c" then some (fun _ _ => .ok (demoOk pid))
  else none

-- ══════════════════════════════════════════════════════════
-- Helper lemmas
-- ══════════════════════════════════════════════════════════

theorem map_eraseIdx {α β : Type} (f : α → β) :
    ∀ (l : List α) (i : Nat), (l.eraseIdx i).map f = (l.map f).eraseIdx i
  | [], _ => by simp [List.eraseIdx]
  | _ :: _, 0 => by simp [List.eraseIdx]
  | a :: l, i + 1 => by
    simp only [List.eraseIdx, List.map_cons, List.cons.injEq, true_and]
    exact map_eraseIdx f l i

theorem claude_load_some {st : ClaudeStore} {d : Jdict}
    (h : claude_load_credentials st = some d) :
    st = some d ∧ truthy (dictGet d "access_token") = true ∧
      truthy (dictGet d "refresh_token") = true := by
  cases st with
  | none => simp [claude_load_credentials] at h
  | some data =>
    by_cases hc : truthy (dictGet data "access_token")
        && truthy (dictGet data "refresh_token")
    · simp only [claude_load_credentials, hc, if_true, Option.some.injEq] at h
      subst h
      simpa using hc
    · simp [claude_load_credentials, hc] at h

theorem codex_load_some {st : AuthData} {c : Jdict}
    (h : codex_load_credentials st = some c) :
    load_provider st CODEX_PROVIDER_ID = some c ∧
      truthy (dictGet c "access") = true ∧ truthy (dictGet c "refresh") = true ∧
      truthy (dictGet c "accountId") = true := by
  unfold codex_load_credentials at h
  cases hl : load_provider st CODEX_PROVIDER_ID with
  | none => rw [hl] at h; exact absurd h (by simp)
  | some creds =>
    rw [hl] at h
    by_cases hc : truthy (dictGet creds "access") && truthy (dictGet creds "refresh")
        && truthy (dictGet creds "accountId")
    · simp only [hc, if_true, Option.some.injEq] at h
      subst h
      simp only [Bool.and_assoc, Bool.and_eq_true] at hc
      exact ⟨rfl, hc.1, hc.2.1, hc.2.2⟩
    · simp [hc] at h

-- ══════════════════════════════════════════════════════════
-- C3 — store round-trip
-- ══════════════════════════════════════════════════════════

/-- C3 counterexample: the claimed round-trip fails for the `api_key`
scheme.  Saving a record whose `type` is `"api_key"` and loading it back
yields `none`, because `load_provider` only admits the types in
`VALID_TYPES = {"oauth", "cookie"}`. -/
theorem save_load_api_key_fails :
    load_provider
      (save_provider emptyAuth "openai-api"
        [("type", Jval.str "api_key"), ("access", Jval.str "sk-test")])
      "openai-api"
    ≠ some [("type", Jval.str "api_key"), ("access", Jval.str "sk-test")] := by
  decide

/-- C3 (amended): `save_provider` then `load_provider` returns the record
unchanged for every record whose `type` is `"oauth"` or `"cookie"` — the two
schemes `auth.VALID_TYPES` admits (`api_key` records are not round-tripped:
the API-key providers read their secrets from settings or the environment,
not from this store). -/
theorem save_load_roundtrip (st : AuthData) (provider_id : String) (creds : Jdict)
    (t : String) (ht : dictGet creds "type" = some (Jval.str t))
    (hv : t = "oauth" ∨ t = "cookie") :
    load_provider (save_provider st provider_id creds) provider_id = some creds := by
  have hvt : validType (dictGet creds "type") = true := by
    rw [ht]
    rcases hv with h | h <;> simp [validType, h]
  simp [load_provider, save_provider, hvt]

/-- C3 witness for the amended round-trip theorem. -/
theorem save_load_roundtrip_witness :
    load_provider
      (save_provider emptyAuth "anthropic"
        [("type", Jval.str "oauth"), ("access", Jval.str "a"),
         ("refresh", Jval.str "r"), ("expires", Jval.num 1771144949262)])
      "anthropic"
    = some [("type", Jval.str "oauth"), ("access", Jval.str "a"),
            ("refresh", Jval.str "r"), ("expires", Jval.num 1771144949262)] :=
  save_load_roundtrip emptyAuth "anthropic" _ "oauth" (by decide) (Or.inl rfl)

-- ══════════════════════════════════════════════════════════
-- C6 — oauth records missing tokens
-- ══════════════════════════════════════════════════════════

/-- C6 counterexample: not every reader treats an oauth record missing its
tokens as absent.  `gemini_oauth.load_credentials` returns a stored
`{"type": "oauth"}` record that has neither token, whereas with no record
stored it returns `none`. -/
theorem gemini_load_missing_tokens_not_absent :
    gemini_load_credentials
        (save_provider emptyAuth GEMINI_PROVIDER_ID [("type", Jval.str "oauth")])
      = some [("type", Jval.str "oauth")]
    ∧ gemini_load_credentials emptyAuth = none := by
  constructor <;> decide

/-- C6 (amended): the claude and codex credential readers do treat an oauth
record missing a required token as absent, but the unified store's
`load_provider` — and with it `gemini_oauth.load_credentials`, which is just
`load_provider` — checks only the scheme tag and returns such a record. -/
theorem oauth_missing_token_readers :
    (∀ d : Jdict,
      truthy (dictGet d "access_token") = false ∨
        truthy (dictGet d "refresh_token") = false →
      claude_load_credentials (some d) = none)
  ∧ (∀ (st : AuthData) (c : Jdict), st CODEX_PROVIDER_ID = some c →
      truthy (dictGet c "access") = false ∨ truthy (dictGet c "refresh") = false →
      codex_load_credentials st = none)
  ∧ (∀ (st : AuthData) (c : Jdict), st GEMINI_PROVIDER_ID = some c →
      validType (dictGet c "type") = true →
      gemini_load_credentials st = some c) := by
  refine ⟨?_, ?_, ?_⟩
  · intro d hmiss
    rcases hmiss with h | h <;> simp [claude_load_credentials, h]
  · intro st c hst hmiss
    unfold codex_load_credentials load_provider
    rw [hst]
    by_cases hv : validType (dictGet c "type")
    · rcases hmiss with h | h <;> simp [hv, h]
    · simp [hv]
  · intro st c hst hv
    unfold gemini_load_credentials load_provider
    rw [hst]
    simp [hv]

/-- C6 witness for the amended reader theorem. -/
theorem oauth_missing_token_readers_witness :
    claude_load_credentials (some [("refresh_token", Jval.str "r")]) = none
    ∧ codex_load_credentials
        (save_provider emptyAuth CODEX_PROVIDER_ID
          [("type", Jval.str "oauth"), ("access", Jval.str "a")]) = none
    ∧ gemini_load_credentials
        (save_provider emptyAuth GEMINI_PROVIDER_ID [("type", Jval.str "oauth")])
      = some [("type", Jval.str "oauth")] :=
  ⟨oauth_missing_token_readers.1 [("refresh_token", Jval.str "r")] (Or.inl (by decide)),
   oauth_missing_token_readers.2.1 _ [("type", Jval.str "oauth"), ("access", Jval.str "a")]
     (by decide) (Or.inr (by decide)),
   oauth_missing_token_readers.2.2 _ [("type", Jval.str "oauth")]
     (by decide) (by decide)⟩

-- ══════════════════════════════════════════════════════════
-- C10 — missing expires defaults to already-expired
-- ══════════════════════════════════════════════════════════

/-- C10: a record with no `expires` field is reported expired by
`auth.is_expired` for every clock reading (the missing value defaults to 0
and `now ≥ 0` always holds), so an oauth reader consulting the check on such
a record goes into its refresh branch — witnessed here by the codex reader,
whose result is then determined by the refresh call's HTTP outcome. -/
theorem is_expired_missing_expires :
    (∀ (now : Nat) (creds : Jdict), dictGet creds "expires" = none →
      is_expired now creds = true)
  ∧ (∀ (now : Nat) (eA eE : String → Option String) (st : AuthData)
      (creds : Jdict) (msg : String),
      codex_load_credentials st = some creds → dictGet creds "expires" = none →
      codex_get_valid_credentials now eA eE st (HttpResult.netError msg)
        = .error (.other msg)) := by
  constructor
  · intro now creds h
    simp only [is_expired, credExpires, h]
    exact decide_eq_true (by positivity)
  · intro now eA eE st creds msg hload hexp
    have hexpd : is_expired now creds = true := by
      simp only [is_expired, credExpires, hexp]
      exact decide_eq_true (by positivity)
    have hrt := (codex_load_some hload).2.2.1
    unfold codex_get_valid_credentials
    rw [hload]
    simp only [hexpd, if_true]
    unfold codex_refresh_access_token
    simp [hrt]

/-- C10 witness. -/
theorem is_expired_missing_expires_witness :
    is_expired 0 [("type", Jval.str "oauth")] = true
    ∧ codex_get_valid_credentials 5 (fun _ => none) (fun _ => none)
        (save_provider emptyAuth CODEX_PROVIDER_ID
          [("type", Jval.str "oauth"), ("access", Jval.str "a"),
           ("refresh", Jval.str "r"), ("accountId", Jval.str "acc")])
        (HttpResult.netError "Cannot connect to host")
      = .error (.other "Cannot connect to host") :=
  ⟨is_expired_missing_expires.1 0 [("type", Jval.str "oauth")] (by decide),
   is_expired_missing_expires.2 5 (fun _ => none) (fun _ => none)
     (save_provider emptyAuth CODEX_PROVIDER_ID
       [("type", Jval.str "oauth"), ("access", Jval.str "a"),
        ("refresh", Jval.str "r"), ("accountId", Jval.str "acc")])
     [("type", Jval.str "oauth"), ("access", Jval.str "a"),
      ("refresh", Jval.str "r"), ("accountId", Jval.str "acc")]
     "Cannot connect to host" (by decide) (by decide)⟩

-- ══════════════════════════════════════════════════════════
-- C2 — refresh failure handling in claude get_valid_access_token
-- ══════════════════════════════════════════════════════════

/-- C2 counterexample: a network error during refresh is *not* swallowed.
With an expired stored record, a transport failure in the refresh call (an
aiohttp exception, not the `RuntimeError` the wrapper raises for non-2xx)
propagates out of `get_valid_access_token` instead of yielding an absent
result. -/
theorem claude_get_valid_network_error_raises :
    claude_get_valid_access_token 1000
      (some [("access_token", Jval.str "A"), ("refresh_token", Jval.str "R"),
             ("expires_at", Jval.num 0)])
      (HttpResult.netError "Cannot connect to host")
    = .error (.other "Cannot connect to host") := rfl

/-- C2 (amended): for an expired oauth record, a refresh failing with a
non-2xx response makes `get_valid_access_token` return an absent result
without raising and leaves the stored record unchanged; a network error,
however, is an exception outside the `RuntimeError` class the caller
catches, and propagates. -/
theorem claude_get_valid_refresh_failure (now : Nat) (st : ClaudeStore)
    (creds : Jdict) (hload : claude_load_credentials st = some creds)
    (hexp : claude_is_token_expired now creds = true) :
    (∀ (status : Nat) (body : String) (td : TokenData), status ≠ 200 →
      claude_get_valid_access_token now st (HttpResult.response status body td)
        = .ok (none, st))
  ∧ (∀ msg : String,
      claude_get_valid_access_token now st (HttpResult.netError msg)
        = .error (.other msg)) := by
  have hrt := (claude_load_some hload).2.2
  constructor
  · intro status body td hs
    unfold claude_get_valid_access_token
    rw [hload]
    simp only [hexp, if_true]
    unfold claude_refresh_access_token
    simp [hrt, hs]
  · intro msg
    unfold claude_get_valid_access_token
    rw [hload]
    simp only [hexp, if_true]
    unfold claude_refresh_access_token
    simp [hrt]

/-- C2 witness for the amended refresh-failure theorem. -/
theorem claude_get_valid_refresh_failure_witness :
    claude_get_valid_access_token 1000
      (some [("access_token", Jval.str "A"), ("refresh_token", Jval.str "R"),
             ("expires_at", Jval.num 0)])
      (HttpResult.response 403 "revoked" {})
    = .ok (none, some [("access_token", Jval.str "A"), ("refresh_token", Jval.str "R"),
                       ("expires_at", Jval.num 0)]) :=
  (claude_get_valid_refresh_failure 1000
    (some [("access_token", Jval.str "A"), ("refresh_token", Jval.str "R"),
           ("expires_at", Jval.num 0)])
    [("access_token", Jval.str "A"), ("refresh_token", Jval.str "R"),
     ("expires_at", Jval.num 0)]
    (by decide) (by decide)).1 403 "revoked" {} (by decide)

-- ══════════════════════════════════════════════════════════
-- C4 — codex get_valid_credentials: unchanged token / refreshed expiry
-- ══════════════════════════════════════════════════════════

/-- C4: for a codex oauth record, `get_valid_credentials` returns the stored
record unchanged (same access token, store untouched) while `expires` is in
the future; once `expires` has passed and the refresh grant answers 200 with
a token valid for `expires_in` seconds, it returns a record carrying the new
access token, and the store afterward holds that record with
`expires = now(ms) + expires_in*1000 − 300000` (the 5-minute buffer
pre-subtracted). -/
theorem codex_get_valid_spec (now : Nat) (eA eE : String → Option String)
    (st : AuthData) (creds : Jdict) (ex : Int)
    (hload : codex_load_credentials st = some creds)
    (hex : dictGet creds "expires" = some (Jval.num ex)) :
    ((now : Int) < ex → ∀ http : HttpResult,
      codex_get_valid_credentials now eA eE st http = .ok (some creds, st))
  ∧ (ex ≤ (now : Int) → ∀ (body : String) (td : TokenData) (a : String) (E : Int),
      td.access_token = some a → a ≠ "" → td.expires_in = some E →
      ∃ (nc : Jdict) (st2 : AuthData),
        codex_get_valid_credentials now eA eE st (HttpResult.response 200 body td)
          = .ok (some nc, st2)
        ∧ dictGet nc "access" = some (Jval.str a)
        ∧ dictGet nc "expires" = some (Jval.num ((now : Int) + E * 1000 - 300000))
        ∧ st2 CODEX_PROVIDER_ID = some nc) := by
  obtain ⟨hlp, hacc, hrt, haid⟩ := codex_load_some hload
  have hce : credExpires creds = ex := by simp [credExpires, hex]
  constructor
  · intro hlt http
    have hnexp : is_expired now creds = false := by
      simp only [is_expired, hce, decide_eq_false_iff_not]
      omega
    unfold codex_get_valid_credentials
    rw [hload]
    simp [hnexp]
  · intro hle body td a E ha hane hE
    have hexp : is_expired now creds = true := by
      simp only [is_expired, hce]
      exact decide_eq_true hle
    unfold codex_get_valid_credentials
    rw [hload]
    simp only [hexp, if_true]
    unfold codex_refresh_access_token
    have h300 : EXPIRY_BUFFER_MS = (300000 : Int) := by norm_num [EXPIRY_BUFFER_MS]
    simp only [hrt, ha, hE, hane, strTruthy, Option.isSome_some, Option.getD_some,
      Bool.and_self, ne_eq, not_true_eq_false, not_false_eq_true, decide_not,
      Bool.not_true, Bool.not_false, if_true, if_false, ite_true, ite_false, h300]
    simp only [decide_True, Bool.and_self, eq_self_iff_true, if_true]
    exact ⟨_, _, rfl, rfl, rfl, rfl⟩

/-- C4 witness: the unchanged-token half at a concrete store and clock. -/
theorem codex_get_valid_spec_witness :
    codex_get_valid_credentials 1000 (fun _ => none) (fun _ => none)
      (save_provider emptyAuth CODEX_PROVIDER_ID
        [("type", Jval.str "oauth"), ("access", Jval.str "tok"),
         ("refresh", Jval.str "r"), ("expires", Jval.num 999999),
         ("accountId", Jval.str "acc")])
      (HttpResult.netError "unused")
    = .ok (some [("type", Jval.str "oauth"), ("access", Jval.str "tok"),
                 ("refresh", Jval.str "r"), ("expires", Jval.num 999999),
                 ("accountId", Jval.str "acc")],
           save_provider emptyAuth CODEX_PROVIDER_ID
             [("type", Jval.str "oauth"), ("access", Jval.str "tok"),
              ("refresh", Jval.str "r"), ("expires", Jval.num 999999),
              ("accountId", Jval.str "acc")]) :=
  (codex_get_valid_spec 1000 (fun _ => none) (fun _ => none)
    (save_provider emptyAuth CODEX_PROVIDER_ID
      [("type", Jval.str "oauth"), ("access", Jval.str "tok"),
       ("refresh", Jval.str "r"), ("expires", Jval.num 999999),
       ("accountId", Jval.str "acc")])
    [("type", Jval.str "oauth"), ("access", Jval.str "tok"),
     ("refresh", Jval.str "r"), ("expires", Jval.num 999999),
     ("accountId", Jval.str "acc")]
    999999 (by decide) (by decide)).1 (by decide) (HttpResult.netError "unused")

-- ══════════════════════════════════════════════════════════
-- C1 — fetch_all: order, isolation, independence
-- ══════════════════════════════════════════════════════════

/-- C1: `fetch_all` returns exactly one result per input id, in input order
— slot `i` is exactly `fetch_one` of the `i`-th id; when an id's fetcher
always raises, `fetch_one` turns that into an error result carrying the
exception's message in that id's slot; and removing any id from the input
list leaves every other slot's result unchanged (the results are the
original list with that slot deleted). -/
theorem fetch_all_spec {α : Type} (fetchers : String → Option (FetchFunc α))
    (ids : List String) (sm : Option (List (String × Jdict))) (t : Nat) :
    ((fetch_all fetchers (some ids) sm t).length = ids.length)
  ∧ (∀ (i : Nat) (hi : i < ids.length)
      (hri : i < (fetch_all fetchers (some ids) sm t).length),
      (fetch_all fetchers (some ids) sm t).get ⟨i, hri⟩
        = fetch_one fetchers (ids.get ⟨i, hi⟩)
            (settingsGet (sm.getD []) (ids.get ⟨i, hi⟩)) t)
  ∧ (∀ (pid : String) (s : Option Jdict) (f : FetchFunc α) (msg : String),
      fetchers pid = some f →
      (∀ sArg, f sArg t = .error msg) →
      fetch_one fetchers pid s t
        = ((PROVIDERS pid).getD FALLBACK_META).errorResult pid msg)
  ∧ (∀ j : Nat, fetch_all fetchers (some (ids.eraseIdx j)) sm t
      = (fetch_all fetchers (some ids) sm t).eraseIdx j) := by
  have hfa : ∀ l : List String, fetch_all fetchers (some l) sm t
      = l.map (fun pid => fetch_one fetchers pid (settingsGet (sm.getD []) pid) t) :=
    fun _ => rfl
  refine ⟨?_, ?_, ?_, ?_⟩
  · rw [hfa]
    exact List.length_map _ _
  · intro i hi hri
    simp [hfa, List.get_eq_getElem, List.getElem_map]
  · intro pid s f msg hf hferr
    simp only [fetch_one, hf, hferr]
  · intro j
    rw [hfa, hfa]
    exact map_eraseIdx _ ids j

/-- C1 witness: the spec's three-provider scenario with `"b"` raising. -/
theorem fetch_all_spec_witness :
    (fetch_all demoFetchers (some ["a", "b", "c"]) none 30).length = 3
    ∧ fetch_one demoFetchers "b" none 30
        = ((PROVIDERS "b").getD FALLBACK_META).errorResult "b" "boom" :=
  ⟨(fetch_all_spec demoFetchers ["a", "b", "c"] none 30).1,
   (fetch_all_spec demoFetchers ["a", "b", "c"] none 30).2.2.1 "b" none
     (fun _ _ => .error "boom") "boom" rfl (fun _ => rfl)⟩

-- ══════════════════════════════════════════════════════════
-- C5 — refresh-cycle coordination invariants
-- ══════════════════════════════════════════════════════════

theorem appInv_initial : AppInv initialAppState :=
  ⟨rfl, fun _ => rfl⟩

theorem appInv_refresh {cfg : List String} (hnd : cfg.Nodup) {s : AppState}
    (h : AppInv s) : AppInv (refresh_all cfg s) := by
  unfold refresh_all
  cases hsp : s.inProgress with
  | true =>
    simp only [if_true]
    exact ⟨h.1, fun hc => by simp at hc⟩
  | false =>
    simp only [Bool.false_eq_true, if_false]
    constructor
    · show s.inFlight + ↑cfg = (cfg.toFinset).val
      have hpend := h.2 hsp
      have hz : s.inFlight = 0 := by rw [h.1, hpend]; rfl
      rw [hz, zero_add]
      show (↑cfg : Multiset String) = (Multiset.toFinset ↑cfg).val
      rw [Multiset.toFinset_val]
      exact (Multiset.dedup_eq_self.mpr (Multiset.coe_nodup.mpr hnd)).symm
    · intro hc
      cases hc

theorem provider_completed_eq (cfg : List String) (pid : String) (s : AppState) :
    provider_completed cfg pid s =
      if s.pending.erase pid = ∅ then
        (if s.queued then
          refresh_all cfg
            { pending := s.pending.erase pid, inProgress := false, queued := false,
              inFlight := s.inFlight.erase pid, cycles := s.cycles }
        else
          { pending := s.pending.erase pid, inProgress := false, queued := s.queued,
            inFlight := s.inFlight.erase pid, cycles := s.cycles })
      else
        { pending := s.pending.erase pid, inProgress := s.inProgress,
          queued := s.queued, inFlight := s.inFlight.erase pid,
          cycles := s.cycles } := rfl

theorem appInv_complete {cfg : List String} (hnd : cfg.Nodup) {s : AppState}
    {pid : String} (hin : pid ∈ s.inFlight) (h : AppInv s) :
    AppInv (provider_completed cfg pid s) := by
  have hmem : pid ∈ s.pending := by
    rw [Finset.mem_def]
    rw [h.1] at hin
    exact hin
  have hip : s.inProgress = true := by
    cases hsp : s.inProgress with
    | true => rfl
    | false =>
      rw [h.2 hsp] at hmem
      exact absurd hmem (Finset.not_mem_empty pid)
  have herase : s.inFlight.erase pid = (s.pending.erase pid).val := by
    rw [h.1, Finset.erase_val]
  rw [provider_completed_eq]
  by_cases hpe : s.pending.erase pid = ∅
  · rw [if_pos hpe]
    cases hq : s.queued with
    | true =>
      simp only [if_true]
      exact appInv_refresh hnd ⟨herase, fun _ => hpe⟩
    | false =>
      simp only [Bool.false_eq_true, if_false]
      exact ⟨herase, fun _ => hpe⟩
  · rw [if_neg hpe]
    exact ⟨herase, fun hc => by rw [hip] at hc; cases hc⟩

theorem appInv_reachable {cfg : List String} (hnd : cfg.Nodup) {s : AppState}
    (h : ReachableApp cfg s) : AppInv s := by
  induction h with
  | init => exact appInv_initial
  | trigger _ ih => exact appInv_refresh hnd ih
  | complete _ hin ih => exact appInv_complete hnd hin ih

/-- C5: (1) a `trigger_refresh` arriving while a cycle is in progress only
sets the queued-followup flag — no new fetch is launched, no other field
changes; (2) in every reachable state at most one fetch worker per provider
is in flight (the queued follow-up is a single boolean, so at most one
follow-up ever exists); (3) three rapid triggers while the first cycle still
has its two providers pending yield exactly 2 cycles — the original and one
coalesced follow-up — after which the app is idle with nothing queued. -/
theorem refresh_cycle_coordinator_spec (cfg : List String) (hnd : cfg.Nodup) :
    (∀ s : AppState, s.inProgress = true →
      refresh_all cfg s = { s with queued := true })
  ∧ (∀ s : AppState, ReachableApp cfg s → ∀ pid : String,
      s.inFlight.count pid ≤ 1)
  ∧ ((runApp ["a", "b"] initialAppState
        [none, none, none, some "a", some "b", some "a", some "b"]).cycles = 2
    ∧ (runApp ["a", "b"] initialAppState
        [none, none, none, some "a", some "b", some "a", some "b"]).inProgress = false
    ∧ (runApp ["a", "b"] initialAppState
        [none, none, none, some "a", some "b", some "a", some "b"]).queued = false
    ∧ (runApp ["a", "b"] initialAppState
        [none, none, none, some "a", some "b", some "a", some "b"]).inFlight = 0) := by
  refine ⟨?_, ?_, ?_, ?_, ?_, ?_⟩
  · intro s hp
    simp [refresh_all, hp]
  · intro s hr pid
    have hinv := appInv_reachable hnd hr
    rw [hinv.1]
    exact Multiset.nodup_iff_count_le_one.mp s.pending.nodup pid
  · decide
  · decide
  · decide
  · decide

/-- C5 witness: the coordinator theorem applied to the two-provider
configuration of the scenario. -/
theorem refresh_cycle_coordinator_spec_witness :
    refresh_all ["a", "b"]
      { pending := {"a", "b"}, inProgress := true, queued := false,
        inFlight := {"a", "b"}, cycles := 1 }
    = { pending := {"a", "b"}, inProgress := true, queued := true,
        inFlight := {"a", "b"}, cycles := 1 }
    ∧ (runApp ["a", "b"] initialAppState
        [none, none, none, some "a", some "b", some "a", some "b"]).cycles = 2 :=
  ⟨(refresh_cycle_coordinator_spec ["a", "b"] (by decide)).1
      { pending := {"a", "b"}, inProgress := true, queued := false,
        inFlight := {"a", "b"}, cycles := 1 } rfl,
   (refresh_cycle_coordinator_spec ["a", "b"] (by decide)).2.2.1⟩

-- ══════════════════════════════════════════════════════════
-- C7 — state validation in the manual-paste flows
-- ══════════════════════════════════════════════════════════

/-- C7 counterexample: the claude manual-paste flow does not validate the
pasted state.  With verifier (and thus sent state) `"VERIFIER"` and pasted
input `CODE#WRONG`, the flow proceeds to the token exchange — with the
mismatching state simply forwarded in the POST payload — instead of failing
before any exchange. -/
theorem claude_manual_state_not_validated :
    ("WRONG" : String) ≠ "VERIFIER"
    ∧ claude_login_exchange_payload "VERIFIER" "CODE#WRONG"
      = .ok [("grant_type", "authorization_code"),
             ("client_id", CLAUDE_CLIENT_ID),
             ("code", "CODE"),
             ("redirect_uri", CLAUDE_REDIRECT_URI),
             ("code_verifier", "VERIFIER"),
             ("state", "WRONG")] :=
  ⟨by decide, rfl⟩

/-- C7 (amended): in the codex manual-paste flow, a pasted URL carrying a
truthy state parameter that differs from the expected state fails with
`RuntimeError("State mismatch")` before any token exchange; the claude
manual-paste flow performs no local state validation — the pasted state is
forwarded inside the token-exchange payload and the exchange proceeds. -/
theorem manual_paste_state_validation :
    (∀ (raw expected st1 : String),
      parse_qs_first (urlQuery (pyStrip raw).toList) "state" = some st1 →
      st1 ≠ "" → st1 ≠ expected → pyStrip raw ≠ "" →
      codex_parse_auth_input raw expected = .error "State mismatch")
  ∧ (∀ (verifier raw code st1 : String),
      claude_manual_parse raw = .ok (code, some st1) → st1 ≠ "" →
      claude_login_exchange_payload verifier raw
        = .ok [("grant_type", "authorization_code"),
               ("client_id", CLAUDE_CLIENT_ID),
               ("code", code),
               ("redirect_uri", CLAUDE_REDIRECT_URI),
               ("code_verifier", verifier),
               ("state", st1)]) := by
  constructor
  · intro raw expected st1 hst hne hnex hraw
    unfold codex_parse_auth_input
    simp only [hraw, if_neg hraw, hst, hne, hnex, ne_eq, not_false_eq_true,
      decide_not, Bool.and_self, if_true, ite_true]
    simp [hne, hnex]
  · intro verifier raw code st1 hp hne
    unfold claude_login_exchange_payload
    rw [hp]
    simp [hne]

/-- C7 witness for the amended validation theorem. -/
theorem manual_paste_state_validation_witness :
    codex_parse_auth_input "https://auth.example/cb?code=abc&state=BAD" "GOOD"
      = .error "State mismatch"
    ∧ claude_login_exchange_payload "V" "CODE#ST"
      = .ok [("grant_type", "authorization_code"),
             ("client_id", CLAUDE_CLIENT_ID),
             ("code", "CODE"),
             ("redirect_uri", CLAUDE_REDIRECT_URI),
             ("code_verifier", "V"),
             ("state", "ST")] :=
  ⟨manual_paste_state_validation.1 "https://auth.example/cb?code=abc&state=BAD"
     "GOOD" "BAD" rfl (by decide) (by decide) (by decide),
   manual_paste_state_validation.2 "V" "CODE#ST" "CODE" "ST" rfl (by decide)⟩

-- ══════════════════════════════════════════════════════════
-- C9 — local-callback login falls back to manual paste
-- ══════════════════════════════════════════════════════════

/-- C9: in both local-callback login flows — codex (port 1455, 60-second
wait) and gemini (port 8085, 120-second wait) — when the fixed callback port
cannot be bound (`bound = false`), or the bounded wait elapses with no
callback delivering a code (`callbackCode = none`), `interactive_login`
falls back to the manual-paste path within the same call, and with valid
pasted input it completes the exchange and persists the credentials. -/
theorem interactive_login_fallback :
    (∀ (bound : Bool) (cb : Option String) (input state verifier : String)
      (exchange : String → String → Except String Jdict) (st : AuthData)
      (c : String) (creds : Jdict),
      bound = false ∨ cb = none →
      pyStrip input ≠ "" →
      codex_parse_auth_input (pyStrip input) state = .ok (some c) →
      c ≠ "" →
      exchange c verifier = .ok creds →
      codex_interactive_login bound cb input state verifier exchange st
        = .ok (creds, save_provider st CODEX_PROVIDER_ID creds))
  ∧ (∀ (bound : Bool) (cb : Option String) (input verifier : String)
      (exchange : String → String → Except String TokenData)
      (discover : String → Except String String)
      (userEmail : String → Option String)
      (st : AuthData) (now : Nat) (c access refresh projectId : String)
      (td : TokenData),
      bound = false ∨ cb = none →
      pyStrip input ≠ "" →
      gemini_parse_auth_input (pyStrip input) verifier = .ok (some c) →
      c ≠ "" →
      exchange c verifier = .ok td →
      td.access_token = some access → access ≠ "" →
      td.refresh_token = some refresh → refresh ≠ "" →
      discover access = .ok projectId →
      gemini_interactive_login bound cb input verifier exchange discover
          userEmail st now
        = .ok ([("type", Jval.str "oauth"),
                ("refresh", Jval.str refresh),
                ("access", Jval.str access),
                ("expires",
                  Jval.num ((now : Int) + td.expires_in.getD 3600 * 1000
                    - EXPIRY_BUFFER_MS)),
                ("projectId", Jval.str projectId),
                ("email", ((userEmail access).map Jval.str).getD Jval.null)],
               save_provider st GEMINI_PROVIDER_ID
                 [("type", Jval.str "oauth"),
                  ("refresh", Jval.str refresh),
                  ("access", Jval.str access),
                  ("expires",
                    Jval.num ((now : Int) + td.expires_in.getD 3600 * 1000
                      - EXPIRY_BUFFER_MS)),
                  ("projectId", Jval.str projectId),
                  ("email", ((userEmail access).map Jval.str).getD Jval.null)])) := by
  constructor
  · intro bound cb input state verifier exchange st c creds hcb hne hparse hcne hex
    have hcode0 : (if bound then cb else none) = none := by
      rcases hcb with h | h
      · rw [h]
        rfl
      · rw [h]
        cases bound <;> rfl
    unfold codex_interactive_login
    rw [hcode0]
    simp only [strTruthy, Bool.false_eq_true, if_false, ite_false]
    rw [if_neg hne, hparse]
    simp only [strTruthy, Option.getD_some, hcne, ne_eq, not_false_eq_true,
      decide_not, if_true, ite_true]
    simp [hcne, hex]
  · intro bound cb input verifier exchange discover userEmail st now c access
      refresh projectId td hcb hne hparse hcne hex ha hane hr hrne hdisc
    have hcode0 : (if bound then cb else none) = none := by
      rcases hcb with h | h
      · rw [h]
        rfl
      · rw [h]
        cases bound <;> rfl
    unfold gemini_interactive_login
    rw [hcode0]
    simp only [strTruthy, Bool.false_eq_true, if_false, ite_false]
    rw [if_neg hne, hparse]
    simp only [strTruthy, Option.getD_some, hcne, ne_eq, not_false_eq_true,
      decide_not, if_true, ite_true]
    rw [hex]
    simp only [decide_True, eq_self_iff_true, if_true]
    rw [ha, hr]
    simp only [Option.getD_some]
    rw [if_pos ⟨hane, hrne⟩, hdisc]

/-- C9 witness: codex with the port unbound and a plain pasted code; gemini
with the port bound but the 120-second wait elapsing, then a pasted redirect
URL. -/
theorem interactive_login_fallback_witness :
    codex_interactive_login false none "  THECODE  " "S" "V"
      (fun c _ => if c = "THECODE"
        then .ok [("type", Jval.str "oauth"), ("access", Jval.str "tok")]
        else .error "bad code")
      emptyAuth
    = .ok ([("type", Jval.str "oauth"), ("access", Jval.str "tok")],
           save_provider emptyAuth CODEX_PROVIDER_ID
             [("type", Jval.str "oauth"), ("access", Jval.str "tok")])
    ∧ gemini_interactive_login true none "https://localhost:8085/oauth2callback?code=GCODE&state=V" "V"
        (fun c _ => if c = "GCODE"
          then .ok { access_token := some "ga", refresh_token := some "gr" }
          else .error "bad code")
        (fun a => if a = "ga" then .ok "proj-1" else .error "no project")
        (fun _ => some "user@example.com")
        emptyAuth 1000
      = .ok ([("type", Jval.str "oauth"),
              ("refresh", Jval.str "gr"),
              ("access", Jval.str "ga"),
              ("expires", Jval.num 3301000),
              ("projectId", Jval.str "proj-1"),
              ("email", Jval.str "user@example.com")],
             save_provider emptyAuth GEMINI_PROVIDER_ID
               [("type", Jval.str "oauth"),
                ("refresh", Jval.str "gr"),
                ("access", Jval.str "ga"),
                ("expires", Jval.num 3301000),
                ("projectId", Jval.str "proj-1"),
                ("email", Jval.str "user@example.com")]) := by
  constructor
  · exact interactive_login_fallback.1 false none "  THECODE  " "S" "V"
      (fun c _ => if c = "THECODE"
        then .ok [("type", Jval.str "oauth"), ("access", Jval.str "tok")]
        else .error "bad code")
      emptyAuth "THECODE" [("type", Jval.str "oauth"), ("access", Jval.str "tok")]
      (Or.inl rfl) (by decide) rfl (by decide) rfl
  · have h := interactive_login_fallback.2 true none
      "https://localhost:8085/oauth2callback?code=GCODE&state=V" "V"
      (fun c _ => if c = "GCODE"
        then .ok { access_token := some "ga", refresh_token := some "gr" }
        else .error "bad code")
      (fun a => if a = "ga" then .ok "proj-1" else .error "no project")
      (fun _ => some "user@example.com")
      emptyAuth 1000 "GCODE" "ga" "gr" "proj-1"
      { access_token := some "ga", refresh_token := some "gr" }
      (Or.inr rfl) (by decide) rfl (by decide) rfl rfl (by decide) rfl (by decide) rfl
    exact h.trans (by norm_num [EXPIRY_BUFFER_MS])

-- ══════════════════════════════════════════════════════════
-- C8 — PKCE pairs: challenge equation, no padding, entropy
-- ══════════════════════════════════════════════════════════

theorem b64urlChar_ne_pad (n : Nat) : b64urlChar n ≠ '=' := by
  by_cases h : n < 64
  · exact (by decide : ∀ m, m < 64 → b64urlChar m ≠ '=') n h
  · unfold b64urlChar
    rw [List.getD_eq_default]
    · decide
    · have hlen : B64URL_ALPHABET.length = 64 := by decide
      omega

theorem rstripEq_cons_of_ne {c : Char} (hc : ¬ c = '=') (l : List Char) :
    rstripEq (c :: l) = c :: rstripEq l := by
  cases h : rstripEq l with
  | nil => simp [rstripEq, h, hc]
  | cons y ys => simp [rstripEq, h]

theorem rstripEq_b64encodePadded : ∀ l : List Nat,
    rstripEq (b64encodePadded l) = b64urlNoPad l := by
  intro l
  induction l using b64encodePadded.induct with
  | case1 a b c rest ih =>
    simp only [b64encodePadded, b64urlNoPad]
    rw [rstripEq_cons_of_ne (b64urlChar_ne_pad _), rstripEq_cons_of_ne (b64urlChar_ne_pad _),
      rstripEq_cons_of_ne (b64urlChar_ne_pad _), rstripEq_cons_of_ne (b64urlChar_ne_pad _),
      ih]
  | case2 a b =>
    simp only [b64encodePadded, b64urlNoPad]
    rw [rstripEq_cons_of_ne (b64urlChar_ne_pad _), rstripEq_cons_of_ne (b64urlChar_ne_pad _),
      rstripEq_cons_of_ne (b64urlChar_ne_pad _),
      show rstripEq ['='] = [] from rfl]
  | case3 a =>
    simp only [b64encodePadded, b64urlNoPad]
    rw [rstripEq_cons_of_ne (b64urlChar_ne_pad _), rstripEq_cons_of_ne (b64urlChar_ne_pad _),
      show rstripEq ['=', '='] = [] from rfl]
  | case4 => rfl

theorem pad_not_mem_b64urlNoPad : ∀ l : List Nat, '=' ∉ b64urlNoPad l := by
  intro l
  induction l using b64urlNoPad.induct with
  | case1 a b c rest ih =>
    simp only [b64urlNoPad, List.mem_cons, not_or]
    refine ⟨?_, ?_, ?_, ?_, ih⟩ <;> exact fun h => b64urlChar_ne_pad _ h.symm
  | case2 a b =>
    simp only [b64urlNoPad, List.mem_cons, not_or]
    refine ⟨?_, ?_, ?_, by simp⟩ <;> exact fun h => b64urlChar_ne_pad _ h.symm
  | case3 a =>
    simp only [b64urlNoPad, List.mem_cons, not_or]
    refine ⟨?_, ?_, by simp⟩ <;> exact fun h => b64urlChar_ne_pad _ h.symm
  | case4 => simp [b64urlNoPad]

theorem b64urlChar_inj : ∀ m, m < 64 → ∀ n, n < 64 →
    b64urlChar m = b64urlChar n → m = n := by
  decide

theorem b64urlNoPad_inj : ∀ l1 l2 : List Nat,
    (∀ x ∈ l1, x < 256) → (∀ x ∈ l2, x < 256) →
    b64urlNoPad l1 = b64urlNoPad l2 → l1 = l2 := by
  intro l1
  induction l1 using b64urlNoPad.induct with
  | case1 a b c rest ih =>
    intro l2 h1 h2 heq
    rcases l2 with _ | ⟨a2, _ | ⟨b2, _ | ⟨c2, rest2⟩⟩⟩
    · simp [b64urlNoPad] at heq
    · simp [b64urlNoPad] at heq
    · simp [b64urlNoPad] at heq
    · simp only [b64urlNoPad, List.cons.injEq] at heq
      obtain ⟨e1, e2, e3, e4, etail⟩ := heq
      have ha : a < 256 := h1 a (by simp)
      have hb : b < 256 := h1 b (by simp)
      have hc : c < 256 := h1 c (by simp)
      have ha2 : a2 < 256 := h2 a2 (by simp)
      have hb2 : b2 < 256 := h2 b2 (by simp)
      have hc2 : c2 < 256 := h2 c2 (by simp)
      have s1 := b64urlChar_inj _ (by omega) _ (by omega) e1
      have s2 := b64urlChar_inj _ (by omega) _ (by omega) e2
      have s3 := b64urlChar_inj _ (by omega) _ (by omega) e3
      have s4 := b64urlChar_inj _ (by omega) _ (by omega) e4
      have habc : a = a2 ∧ b = b2 ∧ c = c2 := by omega
      have hrest : rest = rest2 :=
        ih rest2 (fun x hx => h1 x (by simp [hx])) (fun x hx => h2 x (by simp [hx])) etail
      rw [habc.1, habc.2.1, habc.2.2, hrest]
  | case2 a b =>
    intro l2 h1 h2 heq
    rcases l2 with _ | ⟨a2, _ | ⟨b2, _ | ⟨c2, rest2⟩⟩⟩
    · simp [b64urlNoPad] at heq
    · simp [b64urlNoPad] at heq
    · simp only [b64urlNoPad, List.cons.injEq, and_true] at heq
      obtain ⟨e1, e2, e3⟩ := heq
      have ha : a < 256 := h1 a (by simp)
      have hb : b < 256 := h1 b (by simp)
      have ha2 : a2 < 256 := h2 a2 (by simp)
      have hb2 : b2 < 256 := h2 b2 (by simp)
      have s1 := b64urlChar_inj _ (by omega) _ (by omega) e1
      have s2 := b64urlChar_inj _ (by omega) _ (by omega) e2
      have s3 := b64urlChar_inj _ (by omega) _ (by omega) e3
      have : a = a2 ∧ b = b2 := by omega
      rw [this.1, this.2]
    · simp [b64urlNoPad] at heq
  | case3 a =>
    intro l2 h1 h2 heq
    rcases l2 with _ | ⟨a2, _ | ⟨b2, _ | ⟨c2, rest2⟩⟩⟩
    · simp [b64urlNoPad] at heq
    · simp only [b64urlNoPad, List.cons.injEq, and_true] at heq
      obtain ⟨e1, e2⟩ := heq
      have ha : a < 256 := h1 a (by simp)
      have ha2 : a2 < 256 := h2 a2 (by simp)
      have s1 := b64urlChar_inj _ (by omega) _ (by omega) e1
      have s2 := b64urlChar_inj _ (by omega) _ (by omega) e2
      have : a = a2 := by omega
      rw [this]
    · simp [b64urlNoPad] at heq
    · simp [b64urlNoPad] at heq
  | case4 =>
    intro l2 h1 h2 heq
    rcases l2 with _ | ⟨a2, _ | ⟨b2, _ | ⟨c2, rest2⟩⟩⟩
    · rfl
    · simp [b64urlNoPad] at heq
    · simp [b64urlNoPad] at heq
    · simp [b64urlNoPad] at heq

/-- C8: for every generated PKCE pair, the challenge is exactly the
unpadded base64url encoding of SHA-256 of the verifier's ASCII bytes, and
neither challenge nor verifier contains a padding character; and the seed →
verifier map is injective on byte lists, so a 32-byte (256-bit) seed from
`os.urandom` — or codex's 64-byte `secrets.token_urlsafe` seed — loses no
entropy: the verifier carries the full ≥256 bits of its cryptographically
random source. -/
theorem generate_pkce_spec (sha256 : List Nat → List Nat) (seed : List Nat) :
    ((generate_pkce sha256 seed).2
      = b64urlNoPad (sha256 ((generate_pkce sha256 seed).1.map Char.toNat)))
  ∧ ('=' ∉ (generate_pkce sha256 seed).1 ∧ '=' ∉ (generate_pkce sha256 seed).2)
  ∧ (∀ seed2 : List Nat, (∀ x ∈ seed, x < 256) → (∀ x ∈ seed2, x < 256) →
      (generate_pkce sha256 seed).1 = (generate_pkce sha256 seed2).1 →
      seed = seed2) := by
  refine ⟨?_, ⟨?_, ?_⟩, ?_⟩
  · show rstripEq (b64encodePadded (sha256 _)) = _
    rw [rstripEq_b64encodePadded]
    rfl
  · show '=' ∉ rstripEq (b64encodePadded seed)
    rw [rstripEq_b64encodePadded]
    exact pad_not_mem_b64urlNoPad seed
  · show '=' ∉ rstripEq (b64encodePadded (sha256 _))
    rw [rstripEq_b64encodePadded]
    exact pad_not_mem_b64urlNoPad _
  · intro seed2 hs1 hs2 hv
    have hv2 : b64urlNoPad seed = b64urlNoPad seed2 := by
      rw [← rstripEq_b64encodePadded, ← rstripEq_b64encodePadded]
      exact hv
    exact b64urlNoPad_inj seed seed2 hs1 hs2 hv2

/-- C8 witness: the entropy (injectivity) clause applied at a concrete
seed. -/
theorem generate_pkce_spec_witness : ([1, 2, 3] : List Nat) = [1, 2, 3] :=
  (generate_pkce_spec (fun _ => [0]) [1, 2, 3]).2.2 [1, 2, 3]
    (by decide) (by decide) rfl

end LLMeter
